import Mathlib

/-!
Verification development for the paper-to-video bot (`main.py`,
`paper_voice_bot.py`).

Strings are modelled as lists of characters (`Str`), so that the
character-level operations of the source (`str.strip`, slicing,
`split("\n")`, prefix tests) become structurally recursive Lean
functions.  Durations are modelled as exact rationals.  Network
responses are modelled as already-parsed JSON values, following the
boundary-mapping convention of the design notes: payloads are mapped
into typed entities on receipt.
-/

namespace PaperBot

/-- Python strings, modelled as lists of characters. -/
abbrev Str := List Char

/-- The ASCII whitespace characters stripped by Python's `str.strip()`. -/
def isWs (c : Char) : Bool :=
  c == ' ' || c == '\t' || c == '\n' || c == '\r' || c == '\x0b' || c == '\x0c'

/-- Python `str.strip()`: remove leading and trailing whitespace. -/
def pyStrip (s : Str) : Str :=
  List.rdropWhile isWs (s.dropWhile isWs)

/-- Python `str.strip(chars)`: remove leading and trailing characters from `cs`. -/
def pyStripChars (cs : List Char) (s : Str) : Str :=
  List.rdropWhile (fun c => cs.contains c) (s.dropWhile (fun c => cs.contains c))

/-- Python `s.split("\n")`: split on newline, keeping empty pieces
(`"".split("\n") == [""]`). -/
def splitNl : Str → List Str
  | [] => [[]]
  | c :: rest =>
    if c = '\n' then [] :: splitNl rest
    else
      match splitNl rest with
      | r :: rs => (c :: r) :: rs
      | [] => [[c]]

/-- Helper for `collapseWs`: the flag records whether the previous
character was whitespace (i.e. a space has already been emitted for the
current run). -/
def collapseWsAux : Bool → Str → Str
  | _, [] => []
  | prevWs, c :: rest =>
    if isWs c then
      if prevWs then collapseWsAux true rest
      else ' ' :: collapseWsAux true rest
    else c :: collapseWsAux false rest

/-- Python `re.sub(r"\s+", " ", s)`: collapse every run of whitespace
into a single space. -/
def collapseWs (s : Str) : Str :=
  collapseWsAux false s

/-- `clamp_text` (main.py, lines 54-58): collapse whitespace, strip, and
truncate to `max_chars` with an ellipsis.  Defined in the source's utils
section; notably it is never applied on the summarization path. -/
def clamp_text (text : Str) (max_chars : Nat) : Str :=
  let t := pyStrip (collapseWs text)
  if t.length ≤ max_chars then t else t.take max_chars ++ ['…']

/-!
## Model resolution (`normalize_model_name`, `pick_working_model`)
-/

/-- The canonical `models/` name prefix of the summarization service. -/
def modelsPre : Str := "models/".data

/-- `normalize_model_name` (main.py, lines 123-128): strip, then ensure the
fully-qualified `models/` prefix. -/
def normalize_model_name (model : Str) : Str :=
  let m := pyStrip model
  if modelsPre.isPrefixOf m then m else modelsPre ++ m

/-- One entry of the service's capability list, mapped at the boundary
from the raw JSON of `gemini_list_models`: a canonical name and the list
of supported generation methods. -/
structure MEntry where
  name : Str
  supportedGenerationMethods : List Str
deriving DecidableEq

/-- The `"generateContent"` method string. -/
def genContent : Str := "generateContent".data

/-- Whether a capability entry advertises generation support
(`"generateContent" in m.get("supportedGenerationMethods", [])`). -/
def genCap (m : MEntry) : Bool :=
  m.supportedGenerationMethods.contains genContent

/-- The first loop's test: entry name equals the normalized preferred
name and the entry supports generation. -/
def prefMatch (pn : Str) (m : MEntry) : Bool :=
  m.name == pn && genCap m

/-- Error raised when no model supports generation. -/
inductive ResolverError where
  | noUsableModel
deriving DecidableEq

/-- `pick_working_model` (main.py, lines 130-147): return the normalized
preferred name if some entry matches it with generation support;
otherwise the first generation-capable entry's name; otherwise fail. -/
def pick_working_model (preferred : Str) (models : List MEntry) :
    Except ResolverError Str :=
  let pn := normalize_model_name preferred
  if models.any (prefMatch pn) then .ok pn
  else
    match models.find? genCap with
    | some m => .ok m.name
    | none => .error .noUsableModel

/-!
## Digest construction (`build_slides`, main.py lines 287-304)
-/

/-- The characters stripped from bullet lines: `s.strip(" -・")`. -/
def bulletStripChars : List Char := [' ', '-', '・']

/-- The non-blank lines of the service's summary text, with leading and
trailing bullet markers stripped
(`[s.strip(" -・") for s in summary.split("\n") if s.strip()]`). -/
def rawBullets (summary : Str) : List Str :=
  ((splitNl summary).filter (fun s => !(pyStrip s).isEmpty)).map
    (fun s => pyStripChars bulletStripChars s)

/-- The placeholder bullet `"（要点なし）"` appended while fewer than 3
bullets are present. -/
def placeholder : Str := "（要点なし）".data

/-- The bullet list of `build_slides`: the raw bullets, padded with the
placeholder while fewer than 3 (`while len(bullets) < 3: append`). -/
def digest (summary : Str) : List Str :=
  rawBullets summary ++ List.replicate (3 - (rawBullets summary).length) placeholder

/-- The closing slide text `"END\nありがとうございました"`. -/
def closingSlide : Str := "END\nありがとうございました".data

/-- `build_slides` slide texts (main.py, lines 293-299): title slide,
three point slides, closing slide. -/
def build_slides (title summary : Str) : List Str :=
  let bullets := digest summary
  [ "TITLE\n".data ++ title,
    "POINT 1\n".data ++ bullets.getD 0 [],
    "POINT 2\n".data ++ bullets.getD 1 [],
    "POINT 3\n".data ++ bullets.getD 2 [],
    closingSlide ]

/-!
## Summarization request (`gemini_summarize_ja`, main.py lines 184-209)

The statement building `prompt` is mis-indented in the source (it sits at
column 0 between two indented lines of `gemini_summarize_ja`); it is
modelled at its evident intended place inside the function.
-/

/-- The character budget applied to the paper text before submission
(`paper_text[:12000]`). -/
def truncBudget : Nat := 12000

/-- The paper-text body actually submitted inside the prompt: the first
12000 characters, nothing else (no whitespace normalization). -/
def gemini_summarize_body (paper_text : Str) : Str :=
  paper_text.take truncBudget

/-- The fixed prompt text preceding the title. -/
def promptHead : Str :=
  "\nあなたは日本語が得意なAI研究者です。
次の論文の内容を、日本語で短く要約してください。

出力ルール（厳守）:
- 出力は箇条書きのみ
- 箇条書きは「- 」で始める
- 3点以内
- 各点は最大35文字
- 前置き/挨拶/説明/「わかりました」等は一切書かない
- 余計な行（空行やタイトル行）も不要

タイトル:
".data

/-- The fixed prompt text between the title and the paper body. -/
def promptMid : Str :=
  "

本文（抜粋）:
".data

/-- The full prompt submitted by `gemini_summarize_ja`: the template with
the title and the truncated paper text interpolated, then stripped. -/
def gemini_summarize_prompt (title paper_text : Str) : Str :=
  pyStrip (promptHead ++ title ++ promptMid ++ gemini_summarize_body paper_text ++ ['\n'])

/-!
## Generation call (`gemini_generate_content`, main.py lines 149-182)

The HTTP response is modelled as a status code together with its body,
the body both as raw text (`r.text`, used for the error message) and as
the parsed JSON value (`r.json()`).
-/

/-- JSON values, as parsed from the service's response body. -/
inductive Json where
  | null
  | bool (b : Bool)
  | num (n : Int)
  | str (s : Str)
  | arr (elems : List Json)
  | obj (fields : List (Str × Json))

/-- Dictionary lookup `data[key]`, defined when the value is an object
holding the key. -/
def jget (j : Json) (key : Str) : Option Json :=
  match j with
  | .obj fields => (fields.find? (fun f => f.1 == key)).map (fun f => f.2)
  | _ => none

/-- List indexing `data[i]`, defined when the value is an array long
enough. -/
def jidx (j : Json) (i : Nat) : Option Json :=
  match j with
  | .arr elems => elems.get? i
  | _ => none

mutual

/-- A compact rendering of a JSON value (`json.dumps`, modelled with the
default `", "` and `": "` separators and without escape sequences). -/
def jdump : Json → Str
  | .null => "null".data
  | .bool true => "true".data
  | .bool false => "false".data
  | .num n => (toString n).data
  | .str s => '"' :: s ++ ['"']
  | .arr elems => '[' :: jdumpArr elems ++ [']']
  | .obj fields => '\x7b' :: jdumpObj fields ++ ['\x7d']

/-- Rendering of an array's elements, joined by `", "`. -/
def jdumpArr : List Json → Str
  | [] => []
  | [x] => jdump x
  | x :: xs => jdump x ++ ',' :: ' ' :: jdumpArr xs

/-- Rendering of an object's fields, joined by `", "`. -/
def jdumpObj : List (Str × Json) → Str
  | [] => []
  | [(k, v)] => '"' :: k ++ '"' :: ':' :: ' ' :: jdump v
  | (k, v) :: fs => ('"' :: k ++ '"' :: ':' :: ' ' :: jdump v) ++ ',' :: ' ' :: jdumpObj fs

end

/-- The parse path `data["candidates"][0]["content"]["parts"][0]["text"]`
attempted on a successful response; `none` models the `except` branch. -/
def extract_candidate_text (data : Json) : Option Json :=
  (jget data "candidates".data).bind (fun c => jidx c 0) |>.bind
    (fun c => jget c "content".data) |>.bind
    (fun c => jget c "parts".data) |>.bind
    (fun p => jidx p 0) |>.bind
    (fun p => jget p "text".data)

/-- The failures `gemini_generate_content` raises itself: a missing API
key, or a non-success response status (carrying the status and the
truncated raw body). -/
inductive GenError where
  | emptyKey
  | restError (status : Nat) (body : Str)
deriving DecidableEq

/-- `gemini_generate_content` (main.py, lines 149-182), applied to the
service's response: fail on an empty key; fail with status and truncated
body on a non-200 status; otherwise return the extracted candidate text,
falling back to a truncated raw-JSON rendering of the whole body when
the expected shape is missing. -/
def gemini_generate_content (apiKey : Str) (status : Nat) (body : Json)
    (rawText : Str) : Except GenError Json :=
  if apiKey = [] then .error .emptyKey
  else if status ≠ 200 then .error (.restError status (rawText.take 800))
  else
    match extract_candidate_text body with
    | some v => .ok v
    | none => .ok (.str ((jdump body).take 800))

/-!
## Video assembly (`generate_video`, main.py lines 309-326)

An audio clip carries its measured duration; the assembled video is the
ordered list of per-slide display durations, each the paired clip's
duration plus the fixed pad.  Durations are exact rationals.
-/

/-- An audio clip with its measured duration (`AudioFileClip(...).duration`). -/
structure AudioClip where
  duration : ℚ
deriving DecidableEq

/-- The fixed extra display time after each clip (`+ 0.2` seconds). -/
def vpad : ℚ := 1/5

/-- The assembled video: the per-slide display durations, in order. -/
structure VideoOutput where
  clipDurations : List ℚ
deriving DecidableEq

/-- `generate_video` (main.py, lines 309-326): pair slides with clips by
position (`zip`, which stops at the shorter sequence), give each slide
its clip's duration plus the pad, and concatenate in order.  The source
contains no length check and no failure branch of its own. -/
def generate_video (slide_files : List Str) (audio_files : List AudioClip) :
    VideoOutput :=
  ⟨(slide_files.zip audio_files).map (fun p => p.2.duration + vpad)⟩

/-- Total duration of the assembled video: the clips are concatenated
with no gaps or overlaps, so it is the sum of the display durations. -/
def totalDuration (v : VideoOutput) : ℚ :=
  v.clipDurations.sum

/-!
## Shared lemmas
-/

/-- The digest's bullet list is never shorter than 3. -/
lemma le_digest_length (summary : Str) : 3 ≤ (digest summary).length := by
  simp only [digest, List.length_append, List.length_replicate]
  omega

/-- Below the raw-bullet count, the digest repeats the raw bullets. -/
lemma digest_getElem?_low (summary : Str) (i : Nat)
    (hi : i < (rawBullets summary).length) :
    (digest summary)[i]? = (rawBullets summary)[i]? := by
  simp only [digest]
  exact List.getElem?_append_left hi

/-- From the raw-bullet count up to 3, the digest holds the placeholder. -/
lemma digest_getElem?_pad (summary : Str) (i : Nat)
    (hlo : (rawBullets summary).length ≤ i) (hhi : i < 3) :
    (digest summary)[i]? = some placeholder := by
  simp only [digest]
  rw [List.getElem?_append_right hlo, List.getElem?_replicate_of_lt (by omega)]

/-- A list's `find?` returns the entry at the first index satisfying the
predicate. -/
lemma find?_of_first {α : Type} (p : α → Bool) :
    ∀ (l : List α) (i : Nat) (hi : i < l.length),
      p (l.get ⟨i, hi⟩) = true →
      (∀ j (hj : j < i), p (l.get ⟨j, Nat.lt_trans hj hi⟩) = false) →
      l.find? p = some (l.get ⟨i, hi⟩)
  | a :: t, 0, _, hp, _ => List.find?_cons_of_pos _ hp
  | a :: t, i + 1, hi, hp, hmin => by
    have h0 : p a = false := hmin 0 (Nat.succ_pos i)
    rw [List.find?_cons_of_neg _ (by simp [h0])]
    exact find?_of_first p t i (Nat.lt_of_succ_lt_succ hi) hp
      (fun j hj => hmin (j + 1) (Nat.succ_lt_succ hj))

/-- The head of a prefix is the head of the whole list. -/
lemma head?_of_pre {α : Type} {l₁ l₂ : List α} {c : α}
    (h : l₁ <+: l₂) (hc : l₁.head? = some c) : l₂.head? = some c := by
  obtain ⟨t, rfl⟩ := h
  cases l₁ <;> simp_all

/-- A stripped string whose head exists has a non-whitespace head. -/
lemma pyStrip_head_not_ws (s : Str) {c : Char}
    (hc : (pyStrip s).head? = some c) : isWs c = false := by
  have hpre : pyStrip s <+: s.dropWhile isWs := List.rdropWhile_prefix isWs _
  have hhd : (s.dropWhile isWs).head? = some c := head?_of_pre hpre hc
  rw [List.head?_eq_getElem?] at hhd
  have hlen : 0 < (s.dropWhile isWs).length := by
    by_contra h
    rw [List.getElem?_eq_none (by omega)] at hhd
    exact Option.noConfusion hhd
  rw [List.getElem?_eq_getElem hlen, Option.some.injEq] at hhd
  have hget := List.dropWhile_get_zero_not isWs s hlen
  rw [List.get_eq_getElem] at hget
  rw [← hhd]
  simpa using hget

/-- A stripped string whose last element exists has a non-whitespace
last element. -/
lemma pyStrip_getLast_not_ws (s : Str) (hl : pyStrip s ≠ []) :
    isWs ((pyStrip s).getLast hl) = false := by
  have := List.rdropWhile_last_not isWs (s.dropWhile isWs) hl
  simpa using this

/-- Stripping is idempotent. -/
lemma pyStrip_idem (s : Str) : pyStrip (pyStrip s) = pyStrip s := by
  have h1 : (pyStrip s).dropWhile isWs = pyStrip s := by
    rw [List.dropWhile_eq_self_iff]
    intro hl
    have hhd : (pyStrip s).head? = some ((pyStrip s).get ⟨0, hl⟩) := by
      rw [List.head?_eq_getElem?, List.get_eq_getElem, List.getElem?_eq_getElem hl]
    have := pyStrip_head_not_ws s hhd
    simp [List.get_eq_getElem] at this
    simp [this]
  show List.rdropWhile isWs ((pyStrip s).dropWhile isWs) = pyStrip s
  rw [h1, List.rdropWhile_eq_self_iff]
  intro hl
  have := pyStrip_getLast_not_ws s hl
  simp [this]


/-- Stripping leaves `models/` followed by an already-stripped string
unchanged: the head is the letter `m` and the last character is either
the slash or the stripped string's non-whitespace last character. -/
lemma pyStrip_models_append (s : Str) :
    pyStrip (modelsPre ++ pyStrip s) = modelsPre ++ pyStrip s := by
  have hrev : (pyStrip s).reverse.dropWhile isWs = (pyStrip s).reverse := by
    have h : (pyStrip s).reverse = ((s.dropWhile isWs).reverse).dropWhile isWs := by
      rw [pyStrip, List.rdropWhile, List.reverse_reverse]
    rw [h]
    exact List.dropWhile_idempotent ..
  have h1 : (modelsPre ++ pyStrip s).dropWhile isWs = modelsPre ++ pyStrip s := by
    rw [show modelsPre ++ pyStrip s = 'm' :: ("odels/".data ++ pyStrip s) from rfl,
        List.dropWhile_cons]
    simp only [show isWs 'm' = false from by decide]
    simp
  show List.rdropWhile isWs ((modelsPre ++ pyStrip s).dropWhile isWs) = _
  rw [h1, List.rdropWhile, List.reverse_append, List.dropWhile_append, hrev]
  by_cases hv : pyStrip s = []
  · rw [hv]
    decide
  · have he : ((pyStrip s).reverse).isEmpty = false := by
      simp [List.isEmpty_iff, hv]
    rw [he]
    simp [List.reverse_append]

/-- Normalization always produces a stripped string. -/
lemma pyStrip_normalize (model : Str) :
    pyStrip (normalize_model_name model) = normalize_model_name model := by
  unfold normalize_model_name
  by_cases h : modelsPre.isPrefixOf (pyStrip model)
  · simp only [h, if_true]
    exact pyStrip_idem model
  · simp only [h, if_false]
    exact pyStrip_models_append model

/-!
## Claim theorems
-/

/-- Claim C1 fails on the code as stated: for the four-line summary
below (whose first line has 40 characters), the bullet list built by
`build_slides` has 4 entries, not 3, and contains a bullet longer than
the 35-character cap the prompt requests — the code pads up to 3 but
never truncates the list, and enforces no per-bullet character cap. -/
theorem digest_exact3_cex :
    ¬ (((digest "aaaaaaaaaaaaaaaaaaaaaaaaaaaaaaaaaaaaaaaa\nb\nc\nd".data).length = 3) ∧
      ∀ b ∈ digest "aaaaaaaaaaaaaaaaaaaaaaaaaaaaaaaaaaaaaaaa\nb\nc\nd".data,
        b.length ≤ 35) := by
  decide

/-- Claim C1 (amended): the digest has at least 3 bullets; it has
exactly 3 when the service returned at most 3 non-blank lines; the
service's non-blank lines are kept verbatim after marker stripping,
with no character cap applied; positions from the raw-bullet count up
to index 2 hold the placeholder `（要点なし）`. -/
theorem digest_padding_shape (summary : Str) :
    3 ≤ (digest summary).length ∧
    ((rawBullets summary).length ≤ 3 → (digest summary).length = 3) ∧
    (∀ i, i < (rawBullets summary).length →
      (digest summary)[i]? = (rawBullets summary)[i]?) ∧
    (∀ i, (rawBullets summary).length ≤ i → i < 3 →
      (digest summary)[i]? = some placeholder) := by
  refine ⟨le_digest_length summary, ?_,
    fun i hi => digest_getElem?_low summary i hi,
    fun i hlo hhi => digest_getElem?_pad summary i hlo hhi⟩
  intro h
  simp only [digest, List.length_append, List.length_replicate]
  omega

/-- Witness for the amended C1 at the two-line summary `"- a\n- b"`. -/
theorem digest_padding_shape_witness :
    (rawBullets "- a\n- b".data).length ≤ 3 ∧
    (1 < (rawBullets "- a\n- b".data).length) ∧
    ((rawBullets "- a\n- b".data).length ≤ 2 ∧ 2 < 3) ∧
    ((digest "- a\n- b".data).length = 3 ∧
     (digest "- a\n- b".data)[1]? = (rawBullets "- a\n- b".data)[1]? ∧
     (digest "- a\n- b".data)[2]? = some placeholder) :=
  ⟨by decide, by decide, ⟨by decide, by decide⟩,
    (digest_padding_shape _).2.1 (by decide),
    (digest_padding_shape _).2.2.1 1 (by decide),
    (digest_padding_shape _).2.2.2 2 (by decide) (by decide)⟩

/-- Claim C2 fails on the code as stated: with two slide images and one
audio clip (unequal lengths), `generate_video` does not fail with any
mismatch error — `zip` silently drops the unmatched slide and a
one-clip video is produced. -/
theorem generate_video_mismatch_cex :
    (["slide_01.png".data, "slide_02.png".data] : List Str).length ≠
      ([⟨1⟩] : List AudioClip).length ∧
    generate_video ["slide_01.png".data, "slide_02.png".data] [⟨1⟩]
      = ⟨[6/5]⟩ := by
  refine ⟨by decide, ?_⟩
  simp [generate_video, vpad, List.zip]
  norm_num

/-- Claim C2 (amended): for all inputs, equal-length or not, assembly
does not fail: slides are paired with clips positionally up to the
shorter sequence and a video with `min` of the two lengths many clips
is produced. -/
theorem generate_video_zip_truncation (slide_files : List Str)
    (audio_files : List AudioClip) :
    (generate_video slide_files audio_files).clipDurations.length
      = min slide_files.length audio_files.length := by
  simp [generate_video]

/-- Claim C3: if some capability entry's canonical name equals the
normalized preferred name and that entry advertises generation support,
the resolver returns exactly the normalized preferred name, regardless
of the entry's position in the list. -/
theorem pick_working_model_preferred (preferred : Str) (models : List MEntry)
    (m : MEntry) (hm : m ∈ models)
    (hname : m.name = normalize_model_name preferred)
    (hcap : genCap m = true) :
    pick_working_model preferred models
      = .ok (normalize_model_name preferred) := by
  unfold pick_working_model
  have hany : models.any (prefMatch (normalize_model_name preferred)) = true :=
    List.any_eq_true.mpr ⟨m, hm, by simp [prefMatch, hname, hcap]⟩
  simp [hany]

/-- Witness for C3: the preferred, generation-capable entry sits second
in the list and is still returned. -/
theorem pick_working_model_preferred_witness :
    ((⟨"models/gemini-2.5-flash".data, [genContent]⟩ : MEntry) ∈
      [(⟨"models/other".data, ([] : List Str)⟩ : MEntry),
       ⟨"models/gemini-2.5-flash".data, [genContent]⟩]) ∧
    ((⟨"models/gemini-2.5-flash".data, [genContent]⟩ : MEntry).name
      = normalize_model_name "gemini-2.5-flash".data) ∧
    (genCap ⟨"models/gemini-2.5-flash".data, [genContent]⟩ = true) ∧
    pick_working_model "gemini-2.5-flash".data
      [⟨"models/other".data, []⟩, ⟨"models/gemini-2.5-flash".data, [genContent]⟩]
      = .ok (normalize_model_name "gemini-2.5-flash".data) :=
  ⟨by decide, by decide, by decide,
    pick_working_model_preferred "gemini-2.5-flash".data
      [⟨"models/other".data, []⟩, ⟨"models/gemini-2.5-flash".data, [genContent]⟩]
      ⟨"models/gemini-2.5-flash".data, [genContent]⟩
      (by decide) (by decide) (by decide)⟩

/-- Claim C4: if no entry both matches the normalized preferred name
and advertises generation support, the resolver returns the name of the
first generation-capable entry in the order the service returned. -/
theorem pick_working_model_fallback (preferred : Str) (models : List MEntry)
    (hno : ∀ m ∈ models,
      ¬ (m.name = normalize_model_name preferred ∧ genCap m = true))
    (i : Nat) (hi : i < models.length)
    (hcap : genCap (models.get ⟨i, hi⟩) = true)
    (hfirst : ∀ j (hj : j < i), genCap (models.get ⟨j, Nat.lt_trans hj hi⟩) = false) :
    pick_working_model preferred models = .ok (models.get ⟨i, hi⟩).name := by
  unfold pick_working_model
  have hany : models.any (prefMatch (normalize_model_name preferred)) = false := by
    rw [List.any_eq_false]
    intro m hm
    simp only [prefMatch, Bool.and_eq_true, beq_iff_eq]
    exact fun hcon => hno m hm ⟨hcon.1, hcon.2⟩
  simp only [hany, Bool.false_eq_true, if_false]
  rw [find?_of_first genCap models i hi hcap hfirst]

/-- Witness for C4, the spec's end-to-end scenario C: the preferred
entry lacks generation support, so the first generation-capable entry
is returned. -/
theorem pick_working_model_fallback_witness :
    (∀ m ∈ [(⟨"models/gemini-2.5-flash".data, ([] : List Str)⟩ : MEntry),
            ⟨"models/gemini-1.5-flash".data, [genContent]⟩],
      ¬ (m.name = normalize_model_name "gemini-2.5-flash".data ∧ genCap m = true)) ∧
    pick_working_model "gemini-2.5-flash".data
      [⟨"models/gemini-2.5-flash".data, []⟩,
       ⟨"models/gemini-1.5-flash".data, [genContent]⟩]
      = .ok "models/gemini-1.5-flash".data :=
  ⟨by decide,
    pick_working_model_fallback "gemini-2.5-flash".data
      [⟨"models/gemini-2.5-flash".data, []⟩,
       ⟨"models/gemini-1.5-flash".data, [genContent]⟩]
      (by decide) 1 (by decide) (by decide) (by decide)⟩

/-- Claim C5: if no capability entry advertises generation support, the
resolver fails with the no-usable-model error and returns no name. -/
theorem pick_working_model_no_usable (preferred : Str) (models : List MEntry)
    (h : ∀ m ∈ models, genCap m = false) :
    pick_working_model preferred models = .error .noUsableModel := by
  unfold pick_working_model
  have hany : models.any (prefMatch (normalize_model_name preferred)) = false := by
    rw [List.any_eq_false]
    intro m hm
    simp [prefMatch, h m hm]
  have hfind : models.find? genCap = none :=
    List.find?_eq_none.mpr (fun m hm => by simp [h m hm])
  simp only [hany, hfind, Bool.false_eq_true, if_false]

/-- Witness for C5: one embedding-only entry, no generation support. -/
theorem pick_working_model_no_usable_witness :
    (∀ m ∈ [(⟨"models/embedding-001".data, ["embedContent".data]⟩ : MEntry)],
      genCap m = false) ∧
    pick_working_model "gemini-2.5-flash".data
      [⟨"models/embedding-001".data, ["embedContent".data]⟩]
      = .error .noUsableModel :=
  ⟨by decide,
    pick_working_model_no_usable "gemini-2.5-flash".data
      [⟨"models/embedding-001".data, ["embedContent".data]⟩] (by decide)⟩

/-- Claim C6: for equal-length inputs, every slide is displayed for
exactly its paired clip's measured duration plus the fixed 0.2-second
pad, the clips are concatenated in order with no gaps or overlaps, and
the total duration is the sum over all indices of duration plus pad. -/
theorem generate_video_total_duration (slide_files : List Str)
    (audio_files : List AudioClip)
    (h : slide_files.length = audio_files.length) :
    (generate_video slide_files audio_files).clipDurations
      = audio_files.map (fun a => a.duration + vpad) ∧
    totalDuration (generate_video slide_files audio_files)
      = (audio_files.map (fun a => a.duration + vpad)).sum ∧
    ∀ i (hi : i < audio_files.length),
      (generate_video slide_files audio_files).clipDurations[i]?
        = some ((audio_files.get ⟨i, hi⟩).duration + vpad) := by
  have hmap : (generate_video slide_files audio_files).clipDurations
      = audio_files.map (fun a => a.duration + vpad) := by
    show (slide_files.zip audio_files).map (fun p => p.2.duration + vpad) = _
    rw [show (fun p : Str × AudioClip => p.2.duration + vpad)
          = (fun a : AudioClip => a.duration + vpad) ∘ Prod.snd from rfl,
        ← List.map_map, List.map_snd_zip _ _ (le_of_eq h.symm)]
  refine ⟨hmap, by rw [totalDuration, hmap], ?_⟩
  intro i hi
  rw [hmap, List.getElem?_map, List.getElem?_eq_getElem hi]
  simp [List.get_eq_getElem]

/-- Witness for C6: two slides, clips of 1s and 1.5s, total 2.9s. -/
theorem generate_video_total_duration_witness :
    (["s1.png".data, "s2.png".data] : List Str).length
      = ([⟨1⟩, ⟨3/2⟩] : List AudioClip).length ∧
    totalDuration (generate_video ["s1.png".data, "s2.png".data] [⟨1⟩, ⟨3/2⟩])
      = 29/10 := by
  refine ⟨rfl, ?_⟩
  rw [(generate_video_total_duration ["s1.png".data, "s2.png".data]
        [⟨1⟩, ⟨3/2⟩] rfl).2.1]
  norm_num [vpad]

/-- Claim C7 fails on the code as stated: for the input `"a  b"` the
submitted paper body is `"a  b"` itself — the internal double space
survives, because the summarization path only truncates and never
collapses whitespace (`clamp_text`, which would, is never called
there). -/
theorem gemini_summarize_collapse_cex :
    gemini_summarize_body "a  b".data = "a  b".data ∧
    pyStrip (collapseWs "a  b".data) ≠ "a  b".data := by
  exact ⟨rfl, by decide⟩

/-- Claim C7 (amended): before submission the paper text is truncated
to the fixed 12000-character budget — the submitted body is the prefix
of the input of length `min 12000 (length)` — and no other
transformation (in particular no whitespace collapsing) is applied. -/
theorem gemini_summarize_truncation (paper_text : Str) :
    (gemini_summarize_body paper_text).length
      = min truncBudget paper_text.length ∧
    ∃ rest, gemini_summarize_body paper_text ++ rest = paper_text := by
  exact ⟨by simp [gemini_summarize_body],
    ⟨paper_text.drop truncBudget, List.take_append_drop _ _⟩⟩

/-- Claim C8: given a non-empty API key, the generation call fails iff
the response status is not 200; the error carries the status and the
truncated raw body; and a 200 response whose JSON body lacks the
expected candidate shape yields the truncated raw-JSON rendering of the
body instead of a failure. -/
theorem gemini_generate_content_status_iff (apiKey : Str) (status : Nat)
    (body : Json) (rawText : Str) (hk : apiKey ≠ []) :
    ((∃ e, gemini_generate_content apiKey status body rawText = .error e)
      ↔ status ≠ 200) ∧
    (status ≠ 200 →
      gemini_generate_content apiKey status body rawText
        = .error (.restError status (rawText.take 800))) ∧
    (status = 200 → extract_candidate_text body = none →
      gemini_generate_content apiKey status body rawText
        = .ok (.str ((jdump body).take 800))) := by
  unfold gemini_generate_content
  rw [if_neg hk]
  by_cases hs : status = 200
  · subst hs
    rw [if_neg (by simp)]
    refine ⟨⟨?_, fun hcon => absurd rfl hcon⟩, fun hcon => absurd rfl hcon,
      fun _ hx => by rw [hx]⟩
    rintro ⟨e, he⟩
    cases hx : extract_candidate_text body <;> rw [hx] at he <;>
      exact Except.noConfusion he
  · rw [if_pos hs]
    exact ⟨⟨fun _ => hs, fun _ => ⟨_, rfl⟩⟩, fun _ => rfl, fun hcon => absurd hcon hs⟩

/-- Witness for C8: a 503 turns into the carried error; a 200 with an
empty-object body yields the truncated dump `"\x7b\x7d"`. -/
theorem gemini_generate_content_status_iff_witness :
    ("key".data ≠ ([] : Str)) ∧
    ((503 : Nat) ≠ 200) ∧
    gemini_generate_content "key".data 503 (.obj []) "model overloaded".data
      = .error (.restError 503 ("model overloaded".data.take 800)) ∧
    (extract_candidate_text (.obj []) = none) ∧
    gemini_generate_content "key".data 200 (.obj []) "raw".data
      = .ok (.str ((jdump (Json.obj [])).take 800)) :=
  ⟨by decide, by decide,
    (gemini_generate_content_status_iff "key".data 503 (.obj [])
      "model overloaded".data (by decide)).2.1 (by decide),
    rfl,
    (gemini_generate_content_status_iff "key".data 200 (.obj [])
      "raw".data (by decide)).2.2 rfl rfl⟩

/-- Claim C9: for every title and summary the deck has exactly 5 slides
(hence between 1 and 5), begins with the title slide, ends with the
fixed closing slide, and the three middle slides pair the `POINT k`
headers with the digest's bullets in order. -/
theorem build_slides_shape (title summary : Str) :
    1 ≤ (build_slides title summary).length ∧
    (build_slides title summary).length ≤ 5 ∧
    (build_slides title summary).head? = some ("TITLE\n".data ++ title) ∧
    (build_slides title summary).getLast? = some closingSlide ∧
    ((digest summary)[0]? = some ((digest summary).getD 0 []) ∧
     (build_slides title summary)[1]?
       = some ("POINT 1\n".data ++ (digest summary).getD 0 [])) ∧
    ((digest summary)[1]? = some ((digest summary).getD 1 []) ∧
     (build_slides title summary)[2]?
       = some ("POINT 2\n".data ++ (digest summary).getD 1 [])) ∧
    ((digest summary)[2]? = some ((digest summary).getD 2 []) ∧
     (build_slides title summary)[3]?
       = some ("POINT 3\n".data ++ (digest summary).getD 2 [])) := by
  have h3 := le_digest_length summary
  refine ⟨by norm_num [build_slides], by norm_num [build_slides], rfl, rfl,
    ⟨?_, rfl⟩, ⟨?_, rfl⟩, ⟨?_, rfl⟩⟩
  all_goals
    rw [List.getD_eq_getElem _ _ (by omega), List.getElem?_eq_getElem (by omega)]

/-- Claim C10: model-name normalization is idempotent, and its result
always carries the fully-qualified `models/` prefix. -/
theorem normalize_model_name_idem (model : Str) :
    normalize_model_name (normalize_model_name model) = normalize_model_name model ∧
    ∃ rest, normalize_model_name model = modelsPre ++ rest := by
  have hstrip := pyStrip_normalize model
  have hpre : ∃ rest, normalize_model_name model = modelsPre ++ rest := by
    unfold normalize_model_name
    by_cases h : modelsPre.isPrefixOf (pyStrip model)
    · simp only [h, if_true]
      obtain ⟨t, ht⟩ := Iff.mp List.isPrefixOf_iff_prefix h
      exact ⟨t, ht.symm⟩
    · simp only [h, if_false]
      exact ⟨pyStrip model, rfl⟩
  refine ⟨?_, hpre⟩
  have hexp : normalize_model_name (normalize_model_name model)
      = if modelsPre.isPrefixOf (pyStrip (normalize_model_name model))
        then pyStrip (normalize_model_name model)
        else modelsPre ++ pyStrip (normalize_model_name model) := rfl
  rw [hexp, hstrip]
  obtain ⟨rest, hr⟩ := hpre
  rw [hr, if_pos (Iff.mpr List.isPrefixOf_iff_prefix ⟨rest, rfl⟩)]

end PaperBot
